import Mathlib

/-!
Verification development for the `concurrent` package of the onnttf/kit
repository: a bounded-concurrency task executor with per-task retry and
backoff, configurable error and panic policies, cooperative abort, and
aggregated execution statistics.

The Go code is shallowly embedded as follows.

* Go `error` values become the inductive `GoError`; `errors.Is` against the
  two context sentinels becomes `GoError.errorIs`, which unwraps `wrap`
  nodes exactly as `errors.Is` unwraps errors produced with the `%w` verb.
* A handler invocation is modelled by its observable outcome per
  (item, attempt): it returns nil, returns an error, or panics
  (`Outcome`).  Wall-clock time and the hooks that only observe it
  (`OnBefore`, `OnAfter`, `OnError`) are not modelled; `OnBegin`/`OnEnd`
  invocations are recorded as data because claims refer to them.
* The executor's shared mutable state (the four atomic counters, the
  abort latch, the error-count map and the sample buffer, plus the
  derived run context's cancelled flag) is the record `ExecState`.
  Two extra fields, `handlerCalls` and `errorPolicyCalls`, instrument the
  trace: they count handler invocations and ErrorPolicy consultations,
  mirroring the atomic counters the repository's own tests use to observe
  those events.
* Cancellation of the run's context by the caller is modelled by an
  oracle `env : Nat → Bool` consulted at each context observation point
  (the retry loop's initial select and the backoff-sleep select), indexed
  by a running checkpoint counter; cancellation triggered inside the run
  (abort) is the `ctxCancelled` flag.  The run's own `select` statements
  observe `env k || ctxCancelled`.
* The worker pool is sequentialised: items are dispatched in enqueue
  order and each work item is owned end-to-end by its worker, as the
  source guarantees.  The one scheduling freedom that is observable in
  the counters — after the run context is cancelled, items already
  sitting in the buffered work channel are still drained (each counted
  cancelled by the retry loop's initial context check) while items the
  feeder never enqueued get no status at all — is kept as the parameter
  `drained`: the number of remaining items that were already enqueued at
  cancellation time.
* Go `int` and `time.Duration` fields become `Int` (durations in
  nanoseconds).  For `ExponentialBackoff` the Go code computes
  `float64(base) * math.Pow(2, float64(attempt-1))`; for attempts clamped
  at 62, multiplying by a power of two only shifts the float exponent, so
  within the non-overflowing range the value is exactly the integer
  `base * 2 ^ (attempt - 1)` used here.
-/

namespace Kit.Concurrent

/-- Go errors as observed by the executor: the two context sentinels,
a plain message error, and an error wrapping another (fmt.Errorf with %w). -/
inductive GoError where
  | canceled
  | deadlineExceeded
  | msg (s : String)
  | wrap (pre : String) (inner : GoError)
deriving DecidableEq, Repr

/-- Model of errors.Is(err, target): unwrap any wrapping layers, then
compare with the target. -/
def GoError.errorIs : GoError → GoError → Bool
  | .wrap _ inner, t => inner.errorIs t
  | .canceled, t => decide (t = .canceled)
  | .deadlineExceeded, t => decide (t = .deadlineExceeded)
  | .msg s, t => decide (t = .msg s)

/-- Model of err.Error(): the rendered message, with wrapping text
prepended as fmt.Errorf does. -/
def GoError.errString : GoError → String
  | .canceled => "context canceled"
  | .deadlineExceeded => "context deadline exceeded"
  | .msg s => s
  | .wrap pre inner => pre ++ inner.errString

/-- ErrorAction from type.go. -/
inductive ErrorAction where
  | ActionContinue
  | ActionRetry
  | ActionAbort
deriving DecidableEq, Repr

/-- Observable outcome of one handler invocation: returned nil, returned
an error, or panicked with the given rendered panic value. -/
inductive Outcome where
  | ok
  | fail (e : GoError)
  | panicked (v : String)
deriving DecidableEq, Repr

/-- A Handler, modelled by its outcome as a function of the item and the
zero-based attempt number of the invocation. -/
def Handler (T : Type) := T → Int → Outcome

/-- ErrorPolicy from type.go. -/
def ErrorPolicy (T : Type) := GoError → T → Int → ErrorAction

/-- PanicPolicy from type.go. -/
def PanicPolicy (T : Type) := String → T → Int → ErrorAction

/-- policy.go: AlwaysContinue. -/
def AlwaysContinue (T : Type) : ErrorPolicy T := fun _ _ _ => .ActionContinue

/-- policy.go: AlwaysRetry. -/
def AlwaysRetry (T : Type) : ErrorPolicy T := fun _ _ _ => .ActionRetry

/-- policy.go: AbortOnError. -/
def AbortOnError (T : Type) : ErrorPolicy T := fun _ _ _ => .ActionAbort

/-- policy.go: PanicAsAbort. -/
def PanicAsAbort (T : Type) : PanicPolicy T := fun _ _ _ => .ActionAbort

/-- policy.go: PanicAsContinue. -/
def PanicAsContinue (T : Type) : PanicPolicy T := fun _ _ _ => .ActionContinue

/-- Config (durations in nanoseconds; function fields are Options because
the Go fields are nilable, with SetDefaults installing the defaults). -/
structure Config (T : Type) where
  name : String := ""
  concurrency : Int := 0
  timeout : Int := 0
  maxRetry : Int := 0
  hasBackoff : Bool := false
  errorPolicy : Option (ErrorPolicy T) := none
  panicPolicy : Option (PanicPolicy T) := none
  maxErrorSamples : Int := 0
  errorAggregation : Bool := false
  hasOnBegin : Bool := false
  hasOnEnd : Bool := false

/-- Config.Validate; some s models a non-nil error with message s. -/
def Config.Validate {T : Type} (c : Config T) : Option String :=
  if c.concurrency ≤ 0 then some "concurrency must be > 0"
  else if c.maxRetry < 0 then some "maxRetry must be >= 0"
  else if c.timeout < 0 then some "timeout must be >= 0"
  else none

/-- Config.SetDefaults. -/
def Config.SetDefaults {T : Type} (c : Config T) : Config T :=
  { c with
    name := if c.name = "" then "executor" else c.name
    errorPolicy := some (c.errorPolicy.getD (AlwaysContinue T))
    panicPolicy := some (c.panicPolicy.getD (PanicAsAbort T))
    maxErrorSamples := if c.maxErrorSamples = 0 then 100 else c.maxErrorSamples }

/-- The ErrorPolicy actually invoked by the executor.  New always applies
SetDefaults, so on every executor the field is set; the getD fallback
coincides with the default SetDefaults installs. -/
def Config.errorPolicyFn {T : Type} (c : Config T) : ErrorPolicy T :=
  c.errorPolicy.getD (AlwaysContinue T)

/-- The PanicPolicy actually invoked by the executor (see errorPolicyFn). -/
def Config.panicPolicyFn {T : Type} (c : Config T) : PanicPolicy T :=
  c.panicPolicy.getD (PanicAsAbort T)

/-- workItem from type.go. -/
structure WorkItem (T : Type) where
  id : Nat
  data : T
  attempt : Int
deriving Repr

/-- AbortReason from result.go (timestamp omitted). -/
structure AbortReason where
  taskId : Nat
  attempt : Int
  error : GoError
deriving DecidableEq, Repr

/-- ErrorSample from result.go (timestamp omitted). -/
structure ErrorSample where
  error : GoError
  taskId : Nat
  attempt : Int
deriving DecidableEq, Repr

/-- The executor's shared mutable state during one run.  `ctxCancelled`
is the status of the run's derived context (set by cancel()).
`errorCounts` models the sync.Map of message → count as an
insertion-ordered association list with unique keys.  `handlerCalls` and
`errorPolicyCalls` are trace instrumentation (see module comment). -/
structure ExecState where
  success : Nat := 0
  failed : Nat := 0
  retried : Nat := 0
  cancelled : Nat := 0
  ctxCancelled : Bool := false
  abortInfo : Option AbortReason := none
  errorCounts : List (String × Nat) := []
  samples : List ErrorSample := []
  handlerCalls : Nat := 0
  errorPolicyCalls : Nat := 0
deriving DecidableEq, Repr

/-- LoadOrStore plus increment on the message-count association list. -/
def bumpCount : List (String × Nat) → String → List (String × Nat)
  | [], key => [(key, 1)]
  | (k, n) :: rest, key =>
      if k = key then (k, n + 1) :: rest else (k, n) :: bumpCount rest key

/-- Executor.abort: record the AbortReason, first writer wins
(sync.Once). -/
def abortUpd {T : Type} (st : ExecState) (item : WorkItem T) (e : GoError) :
    ExecState :=
  if st.abortInfo.isNone then
    { st with abortInfo := some ⟨item.id, item.attempt, e⟩ }
  else st

/-- Executor.recordError: bump the aggregation count when
ErrorAggregation is set; append an ErrorSample while the buffer holds
fewer than MaxErrorSamples entries (only when MaxErrorSamples > 0). -/
def recordError {T : Type} (cfg : Config T) (st : ExecState)
    (item : WorkItem T) (e : GoError) : ExecState :=
  let st :=
    if cfg.errorAggregation then
      { st with errorCounts := bumpCount st.errorCounts e.errString }
    else st
  if cfg.maxErrorSamples > 0 ∧ (st.samples.length : Int) < cfg.maxErrorSamples then
    { st with samples := st.samples ++ [⟨e, item.id, item.attempt⟩] }
  else st

/-- The deferred timeout wrap in Executor.execute: when Timeout > 0, a
deadline-exceeded error is wrapped with descriptive text (fmt.Errorf with
%w, so errors.Is still sees deadline-exceeded through the wrap). -/
def effectiveError {T : Type} (cfg : Config T) (e : GoError) : GoError :=
  if cfg.timeout > 0 ∧ e.errorIs .deadlineExceeded then .wrap "task timeout: " e
  else e

/-- Executor.execute: invoke the handler; on panic, recover, convert to an
error, and consult PanicPolicy (abort records AbortReason and cancels the
run context); afterwards the deferred timeout wrap (effectiveError) is
applied to a returned error.  Returns the attempt's error and the updated
state. -/
def execute {T : Type} (cfg : Config T) (st : ExecState) (item : WorkItem T)
    (h : Handler T) : Option GoError × ExecState :=
  let st := { st with handlerCalls := st.handlerCalls + 1 }
  match h item.data item.attempt with
  | .ok => (none, st)
  | .fail e => (some (effectiveError cfg e), st)
  | .panicked v =>
      let e := GoError.msg ("panic: " ++ v)
      if cfg.panicPolicyFn v item.data item.attempt = .ActionAbort then
        (some e, { abortUpd st item e with ctxCancelled := true })
      else (some e, st)

/-- Executor.runWithRetry: the per-task retry loop.  `env` is the
caller-cancellation oracle consulted at checkpoint `k` (see module
comment); `fuel` bounds the loop and is always called with at least
MaxRetry - attempt + 1, which the loop never exceeds because a retry is
only taken while attempt < MaxRetry.  Returns the state and the next
checkpoint index. -/
def runWithRetry {T : Type} (cfg : Config T) (h : Handler T)
    (env : Nat → Bool) :
    Nat → WorkItem T → ExecState → Nat → ExecState × Nat
  | 0, _, st, k => (st, k)
  | fuel + 1, item, st, k =>
    if env k || st.ctxCancelled then
      ({ st with cancelled := st.cancelled + 1 }, k + 1)
    else
      let k := k + 1
      let (res, st) := execute cfg st item h
      match res with
      | none => ({ st with success := st.success + 1 }, k)
      | some err =>
        if err.errorIs .canceled || err.errorIs .deadlineExceeded then
          ({ st with cancelled := st.cancelled + 1 }, k)
        else
          let st := recordError cfg st item err
          let st := { st with errorPolicyCalls := st.errorPolicyCalls + 1 }
          match cfg.errorPolicyFn err item.data item.attempt with
          | .ActionRetry =>
              if item.attempt ≥ cfg.maxRetry then
                ({ st with failed := st.failed + 1 }, k)
              else
                let st := { st with retried := st.retried + 1 }
                let item := { item with attempt := item.attempt + 1 }
                if cfg.hasBackoff then
                  if env k || st.ctxCancelled then
                    (st, k + 1)
                  else
                    runWithRetry cfg h env fuel item st (k + 1)
                else
                  runWithRetry cfg h env fuel item st k
          | .ActionAbort =>
              let st := { st with failed := st.failed + 1 }
              ({ abortUpd st item err with ctxCancelled := true }, k)
          | .ActionContinue =>
              ({ st with failed := st.failed + 1 }, k)

/-- Sequentialised feeder/worker pool over the work items.  While the run
context is live, each item runs the retry loop; once the context is
cancelled, the feeder stops and the `drained` items still buffered in the
work channel are each counted cancelled by the retry loop's initial
context check, while the rest are never dispatched.  Returns the state
and the number of items consumed from the input (dispatched or
drained). -/
def runItems {T : Type} (cfg : Config T) (h : Handler T) (env : Nat → Bool)
    (drained : Nat) :
    List (WorkItem T) → ExecState → Nat → ExecState × Nat
  | [], st, _ => (st, 0)
  | item :: rest, st, k =>
    if env k || st.ctxCancelled then
      ({ st with cancelled := st.cancelled + min drained (rest.length + 1) },
        min drained (rest.length + 1))
    else
      let (st, k) := runWithRetry cfg h env (cfg.maxRetry.toNat + 1) item st k
      let (st, n) := runItems cfg h env drained rest st k
      (st, n + 1)

/-- Result from result.go, together with the observation points the
claims refer to: `errorCount = none` models the nil Go map before
finalization, `endTimeSet` records that EndTime was written,
`onBeginTotal = some t` records that the OnBegin hook ran with total `t`,
and `onEndCalled` that the OnEnd hook ran. -/
structure RunResult where
  total : Nat := 0
  success : Nat := 0
  failed : Nat := 0
  retried : Nat := 0
  cancelled : Nat := 0
  aborted : Bool := false
  abortReason : Option AbortReason := none
  errorSamples : List ErrorSample := []
  errorCount : Option (List (String × Nat)) := none
  endTimeSet : Bool := false
  onBeginTotal : Option Nat := none
  onEndCalled : Bool := false
deriving DecidableEq, Repr

/-- Result.IsComplete from result.go. -/
def RunResult.IsComplete (r : RunResult) : Bool :=
  r.success + r.failed + r.cancelled == r.total

/-- Result.HasErrors from result.go. -/
def RunResult.HasErrors (r : RunResult) : Bool :=
  decide (0 < r.failed) || r.aborted

/-- Executor.populateResult: copy the counters, abort state, samples and
the aggregation map into the result, set EndTime, and fire OnEnd when
configured. -/
def populateResult {T : Type} (cfg : Config T) (st : ExecState)
    (r : RunResult) : RunResult :=
  { r with
    success := st.success
    failed := st.failed
    retried := st.retried
    cancelled := st.cancelled
    aborted := st.abortInfo.isSome
    abortReason := st.abortInfo
    errorSamples := st.samples
    errorCount := some st.errorCounts
    endTimeSet := true
    onEndCalled := cfg.hasOnEnd }

/-- Executor state visible across calls: the config (after SetDefaults)
and the one-shot used flag.  The per-run counters live in ExecState and
start from zero in each (single possible) run. -/
structure Executor (T : Type) where
  config : Config T
  used : Bool

/-- The ErrExecutorReused sentinel. -/
def ErrExecutorReused : GoError := .msg "executor already used; create a new one"

/-- New: validate, apply defaults, return a fresh executor. -/
def New {T : Type} (cfg : Config T) : Except String (Executor T) :=
  match cfg.Validate with
  | some e => .error e
  | none => .ok { config := cfg.SetDefaults, used := false }

/-- Wrap each item of the batch as a workItem with its sequential id and
attempt = 0, as the feeder goroutine does. -/
def toWorkItems {T : Type} (items : List T) : List (WorkItem T) :=
  items.enum.map fun p => ⟨p.1, p.2, 0⟩

/-- Executor.Run (batch mode).  `env` and `drained` resolve the
scheduling freedom described in the module comment.  Returns the
(possibly used-flagged) executor and either the reuse sentinel or the
final Result. -/
def Executor.Run {T : Type} (ex : Executor T) (items : List T)
    (h : Handler T) (env : Nat → Bool) (drained : Nat) :
    Executor T × Except GoError RunResult :=
  if ex.used then (ex, .error ErrExecutorReused)
  else
    let ex := { ex with used := true }
    let r : RunResult :=
      { total := items.length
        onBeginTotal := if ex.config.hasOnBegin then some items.length else none }
    if items.isEmpty then
      (ex, .ok { r with endTimeSet := true })
    else
      let (st, _) := runItems ex.config h env drained (toWorkItems items) {} 0
      (ex, .ok (populateResult ex.config st r))

/-- Executor.RunStream: same worker mechanics over the stream contents
(the items the caller sends before closing the channel); Total is the
count of items actually consumed, populated post-hoc. -/
def Executor.RunStream {T : Type} (ex : Executor T) (inItems : List T)
    (h : Handler T) (env : Nat → Bool) (drained : Nat) :
    Executor T × Except GoError RunResult :=
  if ex.used then (ex, .error ErrExecutorReused)
  else
    let ex := { ex with used := true }
    let r : RunResult :=
      { onBeginTotal := if ex.config.hasOnBegin then some 0 else none }
    let (st, consumed) := runItems ex.config h env drained (toWorkItems inItems) {} 0
    (ex, .ok (populateResult ex.config st { r with total := consumed }))

/-- Extract the Result of a successful Run/RunStream call (test-harness
helper; the zero RunResult stands for the nil pointer of the error
case). -/
def runResultOf {T : Type} (x : Executor T × Except GoError RunResult) :
    RunResult :=
  match x.2 with
  | .ok r => r
  | .error _ => {}

/-- backoff.go: ConstantBackoff. -/
def ConstantBackoff (delay : Int) (_attempt : Int) : Int := delay

/-- backoff.go: LinearBackoff. -/
def LinearBackoff (base : Int) (attempt : Int) : Int := base * attempt

/-- backoff.go: ExponentialBackoff.  The Go code computes
float64(base) * math.Pow(2, float64(attempt-1)) and converts back to a
Duration; with the attempt clamped at 62, multiplication by a power of
two is exact, so within the non-overflowing range the delay equals this
integer value. -/
def ExponentialBackoff (base mx : Int) (attempt : Int) : Int :=
  if attempt ≤ 0 then 0
  else
    let a := if attempt > 62 then 62 else attempt
    let delay := base * 2 ^ (a - 1).toNat
    if mx > 0 ∧ delay > mx then mx else delay

/-- backoff.go: the fibonacci helper. -/
def fibonacci : Nat → Nat
  | 0 => 0
  | 1 => 1
  | n + 2 => fibonacci n + fibonacci (n + 1)

/-- backoff.go: FibonacciBackoff. -/
def FibonacciBackoff (base mx : Int) (attempt : Int) : Int :=
  if attempt ≤ 0 then 0
  else
    let a := if attempt > 92 then 92 else attempt
    let delay := base * (fibonacci a.toNat : Int)
    if mx > 0 ∧ delay > mx then mx else delay

/-! ## Helper lemmas -/

section Helpers

variable {T : Type}

@[simp] theorem abortUpd_success (st : ExecState) (item : WorkItem T) (e : GoError) :
    (abortUpd st item e).success = st.success := by
  unfold abortUpd; split <;> rfl

@[simp] theorem abortUpd_failed (st : ExecState) (item : WorkItem T) (e : GoError) :
    (abortUpd st item e).failed = st.failed := by
  unfold abortUpd; split <;> rfl

@[simp] theorem abortUpd_retried (st : ExecState) (item : WorkItem T) (e : GoError) :
    (abortUpd st item e).retried = st.retried := by
  unfold abortUpd; split <;> rfl

@[simp] theorem abortUpd_cancelled (st : ExecState) (item : WorkItem T) (e : GoError) :
    (abortUpd st item e).cancelled = st.cancelled := by
  unfold abortUpd; split <;> rfl

@[simp] theorem abortUpd_ctxCancelled (st : ExecState) (item : WorkItem T) (e : GoError) :
    (abortUpd st item e).ctxCancelled = st.ctxCancelled := by
  unfold abortUpd; split <;> rfl

@[simp] theorem abortUpd_samples (st : ExecState) (item : WorkItem T) (e : GoError) :
    (abortUpd st item e).samples = st.samples := by
  unfold abortUpd; split <;> rfl

@[simp] theorem abortUpd_handlerCalls (st : ExecState) (item : WorkItem T) (e : GoError) :
    (abortUpd st item e).handlerCalls = st.handlerCalls := by
  unfold abortUpd; split <;> rfl

@[simp] theorem abortUpd_errorPolicyCalls (st : ExecState) (item : WorkItem T) (e : GoError) :
    (abortUpd st item e).errorPolicyCalls = st.errorPolicyCalls := by
  unfold abortUpd; split <;> rfl

@[simp] theorem abortUpd_errorCounts (st : ExecState) (item : WorkItem T) (e : GoError) :
    (abortUpd st item e).errorCounts = st.errorCounts := by
  unfold abortUpd; split <;> rfl

@[simp] theorem recordError_success (cfg : Config T) (st : ExecState) (item : WorkItem T) (e : GoError) :
    (recordError cfg st item e).success = st.success := by
  unfold recordError; split <;> dsimp only <;> split <;> rfl

@[simp] theorem recordError_failed (cfg : Config T) (st : ExecState) (item : WorkItem T) (e : GoError) :
    (recordError cfg st item e).failed = st.failed := by
  unfold recordError; split <;> dsimp only <;> split <;> rfl

@[simp] theorem recordError_retried (cfg : Config T) (st : ExecState) (item : WorkItem T) (e : GoError) :
    (recordError cfg st item e).retried = st.retried := by
  unfold recordError; split <;> dsimp only <;> split <;> rfl

@[simp] theorem recordError_cancelled (cfg : Config T) (st : ExecState) (item : WorkItem T) (e : GoError) :
    (recordError cfg st item e).cancelled = st.cancelled := by
  unfold recordError; split <;> dsimp only <;> split <;> rfl

@[simp] theorem recordError_ctxCancelled (cfg : Config T) (st : ExecState) (item : WorkItem T) (e : GoError) :
    (recordError cfg st item e).ctxCancelled = st.ctxCancelled := by
  unfold recordError; split <;> dsimp only <;> split <;> rfl

@[simp] theorem recordError_abortInfo (cfg : Config T) (st : ExecState) (item : WorkItem T) (e : GoError) :
    (recordError cfg st item e).abortInfo = st.abortInfo := by
  unfold recordError; split <;> dsimp only <;> split <;> rfl

@[simp] theorem recordError_handlerCalls (cfg : Config T) (st : ExecState) (item : WorkItem T) (e : GoError) :
    (recordError cfg st item e).handlerCalls = st.handlerCalls := by
  unfold recordError; split <;> dsimp only <;> split <;> rfl

@[simp] theorem recordError_errorPolicyCalls (cfg : Config T) (st : ExecState) (item : WorkItem T) (e : GoError) :
    (recordError cfg st item e).errorPolicyCalls = st.errorPolicyCalls := by
  unfold recordError; split <;> dsimp only <;> split <;> rfl

/-- The error produced by wrapping still satisfies errors.Is for the
wrapped sentinel: unwrapping is definitional. -/
@[simp] theorem errorIs_wrap (pre : String) (e t : GoError) :
    (GoError.wrap pre e).errorIs t = e.errorIs t := rfl

end Helpers

/-! ## Claims about the backoff strategies (C8) -/

/-- Claim C8 counterexample: the claim states ExponentialBackoff(1s, 1min)
returns 1min at attempt 5, but 1s * 2^4 = 16s is below the 1min cap, so
the function returns 16s there (durations in nanoseconds). -/
theorem exponential_backoff_attempt5_cex :
    ExponentialBackoff 1000000000 60000000000 5 = 16000000000 ∧
    ExponentialBackoff 1000000000 60000000000 5 ≠ 60000000000 := by
  constructor <;> decide

/-- Claim C8 (amended): ExponentialBackoff maps attempt a to
base * 2^(a-1), capped at max when max > 0, with the attempt clamped at
62 and attempt ≤ 0 returning zero delay; concretely,
ExponentialBackoff(1s, 1min) returns 1s at attempt 1 and 16s (not 1min)
at attempt 5, and ExponentialBackoff(100ms, 1s) returns 800ms at attempt
4, 1s at attempt 5, and 1s at attempt 10. -/
theorem exponential_backoff_spec :
    (∀ base mx a : Int, a ≤ 0 → ExponentialBackoff base mx a = 0) ∧
    (∀ base mx a : Int, 0 < a → a ≤ 62 → 0 < mx →
      ExponentialBackoff base mx a = min (base * 2 ^ (a - 1).toNat) mx) ∧
    (∀ base mx a : Int, 0 < a → a ≤ 62 → mx ≤ 0 →
      ExponentialBackoff base mx a = base * 2 ^ (a - 1).toNat) ∧
    (∀ base mx a : Int, 62 < a →
      ExponentialBackoff base mx a = ExponentialBackoff base mx 62) ∧
    ExponentialBackoff 1000000000 60000000000 1 = 1000000000 ∧
    ExponentialBackoff 1000000000 60000000000 5 = 16000000000 ∧
    ExponentialBackoff 100000000 1000000000 4 = 800000000 ∧
    ExponentialBackoff 100000000 1000000000 5 = 1000000000 ∧
    ExponentialBackoff 100000000 1000000000 10 = 1000000000 := by
  refine ⟨?_, ?_, ?_, ?_, by decide, by decide, by decide, by decide, by decide⟩
  · intro base mx a ha
    unfold ExponentialBackoff
    simp [ha]
  · intro base mx a ha1 ha2 hmx
    unfold ExponentialBackoff
    rw [if_neg (by omega : ¬ a ≤ 0)]
    dsimp only
    rw [if_neg (by omega : ¬ a > 62)]
    by_cases hgt : base * 2 ^ (a - 1).toNat > mx
    · rw [if_pos ⟨hmx, hgt⟩]
      exact (min_eq_right hgt.le).symm
    · rw [if_neg (fun hand => hgt hand.2)]
      exact (min_eq_left (not_lt.mp hgt)).symm
  · intro base mx a ha1 ha2 hmx
    unfold ExponentialBackoff
    rw [if_neg (by omega : ¬ a ≤ 0)]
    dsimp only
    rw [if_neg (by omega : ¬ a > 62),
      if_neg (fun hand => absurd hand.1 (not_lt.mpr hmx))]
  · intro base mx a ha
    unfold ExponentialBackoff
    rw [if_neg (by omega : ¬ a ≤ 0), if_neg (by omega : ¬ (62 : Int) ≤ 0)]
    dsimp only
    rw [if_pos (by omega : a > 62), if_neg (by omega : ¬ (62 : Int) > 62)]

/-- Claim C8 witness: the conditional parts of the spec evaluated at
concrete inputs. -/
theorem exponential_backoff_spec_witness :
    ExponentialBackoff 5 7 0 = 0 ∧
    ExponentialBackoff 100 1000 4 = min 800 1000 ∧
    ExponentialBackoff 100 0 4 = 800 ∧
    ExponentialBackoff 3 0 100 = ExponentialBackoff 3 0 62 := by
  refine ⟨exponential_backoff_spec.1 5 7 0 (by decide),
    exponential_backoff_spec.2.1 100 1000 4 (by decide) (by decide) (by decide),
    exponential_backoff_spec.2.2.1 100 0 4 (by decide) (by decide) (by decide),
    exponential_backoff_spec.2.2.2.1 3 0 100 (by decide)⟩

/-! ## Claims about the per-task retry loop (C1, C2, C3) -/

/-- Concrete scenario: per-task timeout configured, AlwaysRetry policy. -/
def timeoutRetryConfig : Config Unit :=
  { concurrency := 1, timeout := 1000, maxRetry := 5, errorPolicy := some (AlwaysRetry Unit) }

/-- Handler whose attempts expire with the deadline-exceeded error. -/
def deadlineHandler : Handler Unit := fun _ _ => .fail .deadlineExceeded

/-- Claim C1 counterexample: with Timeout > 0, AlwaysRetry, MaxRetry = 5
and a handler whose attempt expires with the deadline-exceeded error, the
task ends counted Cancelled after a single attempt, with no error
recorded (samples stay empty) and the ErrorPolicy never consulted —
contradicting the claim that a per-task timeout error is treated as the
attempt ordinary error and does not cause the Cancelled outcome. -/
theorem task_timeout_not_retried_cex :
    (runWithRetry timeoutRetryConfig deadlineHandler (fun _ => false) 6
      ⟨0, (), 0⟩ {} 0).1 = { cancelled := 1, handlerCalls := 1 } := by
  decide

/-- Claim C1 (amended): a per-attempt timeout expiry is wrapped as a
descriptive timeout error, but the wrap preserves errors.Is
deadline-exceeded, so the retry loop treats it exactly like run-level
cancellation: the task is counted Cancelled after that attempt, the error
is not recorded, and the ErrorPolicy is never consulted. -/
theorem task_timeout_marks_cancelled {T : Type} (cfg : Config T)
    (h : Handler T) (x : T) (i : Nat) (a : Int) (st : ExecState)
    (k fuel : Nat) (e : GoError)
    (htm : 0 < cfg.timeout)
    (hh : h x a = .fail e)
    (hde : e.errorIs .deadlineExceeded = true)
    (hctx : st.ctxCancelled = false) :
    (execute cfg st ⟨i, x, a⟩ h).1 = some (.wrap "task timeout: " e) ∧
    runWithRetry cfg h (fun _ => false) (fuel + 1) ⟨i, x, a⟩ st k =
      ({ st with handlerCalls := st.handlerCalls + 1,
                 cancelled := st.cancelled + 1 }, k + 1) := by
  constructor
  · simp [execute, effectiveError, hh, hde, htm]
  · simp [runWithRetry, hctx, execute, effectiveError, hh, hde, htm]

/-- Claim C1 witness: the amended theorem at a concrete input. -/
theorem task_timeout_marks_cancelled_witness :
    (execute timeoutRetryConfig {} ⟨0, (), 0⟩ deadlineHandler).1 =
      some (.wrap "task timeout: " .deadlineExceeded) ∧
    runWithRetry timeoutRetryConfig deadlineHandler (fun _ => false) 1
      ⟨0, (), 0⟩ {} 0 = ({ handlerCalls := 1, cancelled := 1 }, 1) :=
  task_timeout_marks_cancelled timeoutRetryConfig deadlineHandler () 0 0 {} 0 0
    .deadlineExceeded (by decide) rfl rfl rfl

/-- Concrete scenario: AlwaysRetry with a backoff function configured. -/
def backoffRetryConfig : Config Unit :=
  { concurrency := 1, maxRetry := 3, errorPolicy := some (AlwaysRetry Unit), hasBackoff := true }

/-- Handler that always fails with an ordinary error. -/
def boomHandler : Handler Unit := fun _ _ => .fail (.msg "boom")

/-- Claim C3 counterexample: run-context cancellation arriving during the
backoff sleep (checkpoint 1) stops the task after one attempt and one
recorded retry, but the cancelled counter stays 0 (as do success and
failed) — contradicting the claim that the task is counted Cancelled. -/
theorem backoff_cancel_uncounted_cex :
    (runWithRetry backoffRetryConfig boomHandler (fun k => k == 1) 4
      ⟨0, (), 0⟩ {} 0).1 =
      { retried := 1, handlerCalls := 1, errorPolicyCalls := 1 } := by
  decide

/-- Claim C3 (amended): when the run context is cancelled while the
worker sleeps in the backoff delay, the sleep is interrupted and the task
stops, but no terminal counter is incremented for it — in particular the
cancelled counter is unchanged; only the retry counter was already
incremented before the sleep. -/
theorem backoff_cancel_stops_without_counter {T : Type} (cfg : Config T)
    (h : Handler T) (env : Nat → Bool) (x : T) (i : Nat) (a : Int)
    (st : ExecState) (k fuel : Nat) (e : GoError)
    (hbo : cfg.hasBackoff = true)
    (hpol : cfg.errorPolicy = some (AlwaysRetry T))
    (hlt : a < cfg.maxRetry)
    (hh : h x a = .fail e)
    (hc : e.errorIs .canceled = false)
    (hd : e.errorIs .deadlineExceeded = false)
    (hctx : st.ctxCancelled = false)
    (henv0 : env k = false)
    (henv1 : env (k + 1) = true) :
    (runWithRetry cfg h env (fuel + 1) ⟨i, x, a⟩ st k).2 = k + 2 ∧
    (runWithRetry cfg h env (fuel + 1) ⟨i, x, a⟩ st k).1.success = st.success ∧
    (runWithRetry cfg h env (fuel + 1) ⟨i, x, a⟩ st k).1.failed = st.failed ∧
    (runWithRetry cfg h env (fuel + 1) ⟨i, x, a⟩ st k).1.cancelled = st.cancelled ∧
    (runWithRetry cfg h env (fuel + 1) ⟨i, x, a⟩ st k).1.retried = st.retried + 1 ∧
    (runWithRetry cfg h env (fuel + 1) ⟨i, x, a⟩ st k).1.handlerCalls =
      st.handlerCalls + 1 := by
  have hnl : ¬ ((⟨i, x, a⟩ : WorkItem T).attempt ≥ cfg.maxRetry) := not_le.mpr hlt
  simp [runWithRetry, hctx, henv0, execute, effectiveError, hh, hd, hc, hnl,
    Config.errorPolicyFn, hpol, AlwaysRetry, hbo, henv1]

/-- Claim C3 witness: the amended theorem at a concrete input. -/
theorem backoff_cancel_stops_without_counter_witness :
    (runWithRetry backoffRetryConfig boomHandler (fun k => k == 1) 3
      ⟨0, (), 0⟩ {} 0).2 = 2 ∧
    (runWithRetry backoffRetryConfig boomHandler (fun k => k == 1) 3
      ⟨0, (), 0⟩ {} 0).1.success = 0 ∧
    (runWithRetry backoffRetryConfig boomHandler (fun k => k == 1) 3
      ⟨0, (), 0⟩ {} 0).1.failed = 0 ∧
    (runWithRetry backoffRetryConfig boomHandler (fun k => k == 1) 3
      ⟨0, (), 0⟩ {} 0).1.cancelled = 0 ∧
    (runWithRetry backoffRetryConfig boomHandler (fun k => k == 1) 3
      ⟨0, (), 0⟩ {} 0).1.retried = 1 ∧
    (runWithRetry backoffRetryConfig boomHandler (fun k => k == 1) 3
      ⟨0, (), 0⟩ {} 0).1.handlerCalls = 1 :=
  backoff_cancel_stops_without_counter backoffRetryConfig boomHandler
    (fun k => k == 1) () 0 0 {} 0 2 (.msg "boom")
    rfl rfl (by decide) rfl rfl rfl rfl rfl rfl

/-- The state accumulated by one failing attempt before the policy
decision: handler invoked, error recorded, ErrorPolicy consulted. -/
def failState {T : Type} (cfg : Config T) (st : ExecState) (it : WorkItem T)
    (e : GoError) : ExecState :=
  let st1 := recordError cfg { st with handlerCalls := st.handlerCalls + 1 } it e
  { st1 with errorPolicyCalls := st1.errorPolicyCalls + 1 }

/-- failState followed by the retry-counter increment. -/
def retryState {T : Type} (cfg : Config T) (st : ExecState) (it : WorkItem T)
    (e : GoError) : ExecState :=
  let st1 := failState cfg st it e
  { st1 with retried := st1.retried + 1 }

@[simp] theorem failState_success {T : Type} (cfg : Config T) (st : ExecState)
    (it : WorkItem T) (e : GoError) : (failState cfg st it e).success = st.success := by
  simp [failState]

@[simp] theorem failState_failed {T : Type} (cfg : Config T) (st : ExecState)
    (it : WorkItem T) (e : GoError) : (failState cfg st it e).failed = st.failed := by
  simp [failState]

@[simp] theorem failState_retried {T : Type} (cfg : Config T) (st : ExecState)
    (it : WorkItem T) (e : GoError) : (failState cfg st it e).retried = st.retried := by
  simp [failState]

@[simp] theorem failState_cancelled {T : Type} (cfg : Config T) (st : ExecState)
    (it : WorkItem T) (e : GoError) : (failState cfg st it e).cancelled = st.cancelled := by
  simp [failState]

@[simp] theorem failState_ctxCancelled {T : Type} (cfg : Config T) (st : ExecState)
    (it : WorkItem T) (e : GoError) :
    (failState cfg st it e).ctxCancelled = st.ctxCancelled := by
  simp [failState]

@[simp] theorem failState_handlerCalls {T : Type} (cfg : Config T) (st : ExecState)
    (it : WorkItem T) (e : GoError) :
    (failState cfg st it e).handlerCalls = st.handlerCalls + 1 := by
  simp [failState]

@[simp] theorem failState_abortInfo {T : Type} (cfg : Config T) (st : ExecState)
    (it : WorkItem T) (e : GoError) :
    (failState cfg st it e).abortInfo = st.abortInfo := by
  simp [failState]

@[simp] theorem retryState_success {T : Type} (cfg : Config T) (st : ExecState)
    (it : WorkItem T) (e : GoError) : (retryState cfg st it e).success = st.success := by
  simp [retryState]

@[simp] theorem retryState_failed {T : Type} (cfg : Config T) (st : ExecState)
    (it : WorkItem T) (e : GoError) : (retryState cfg st it e).failed = st.failed := by
  simp [retryState]

@[simp] theorem retryState_retried {T : Type} (cfg : Config T) (st : ExecState)
    (it : WorkItem T) (e : GoError) :
    (retryState cfg st it e).retried = st.retried + 1 := by
  simp [retryState]

@[simp] theorem retryState_cancelled {T : Type} (cfg : Config T) (st : ExecState)
    (it : WorkItem T) (e : GoError) :
    (retryState cfg st it e).cancelled = st.cancelled := by
  simp [retryState]

@[simp] theorem retryState_ctxCancelled {T : Type} (cfg : Config T) (st : ExecState)
    (it : WorkItem T) (e : GoError) :
    (retryState cfg st it e).ctxCancelled = st.ctxCancelled := by
  simp [retryState]

@[simp] theorem retryState_handlerCalls {T : Type} (cfg : Config T) (st : ExecState)
    (it : WorkItem T) (e : GoError) :
    (retryState cfg st it e).handlerCalls = st.handlerCalls + 1 := by
  simp [retryState]

@[simp] theorem retryState_abortInfo {T : Type} (cfg : Config T) (st : ExecState)
    (it : WorkItem T) (e : GoError) :
    (retryState cfg st it e).abortInfo = st.abortInfo := by
  simp [retryState]

/-- One unfolding of the retry loop: ordinary failure, Retry decision,
attempt below MaxRetry, no backoff function configured — loop again with
the incremented attempt. -/
theorem runWithRetry_step_retry_nb {T : Type} (cfg : Config T) (h : Handler T)
    (env : Nat → Bool) (x : T) (i : Nat) (a : Int) (st : ExecState)
    (k f : Nat) (e : GoError)
    (henv : env k = false) (hctx : st.ctxCancelled = false)
    (hh : h x a = .fail e)
    (hc : e.errorIs .canceled = false)
    (hd : e.errorIs .deadlineExceeded = false)
    (hact : cfg.errorPolicyFn e x a = .ActionRetry)
    (hng : ¬ (a ≥ cfg.maxRetry))
    (hbo : cfg.hasBackoff = false) :
    runWithRetry cfg h env (f + 1) ⟨i, x, a⟩ st k =
      runWithRetry cfg h env f ⟨i, x, a + 1⟩ (retryState cfg st ⟨i, x, a⟩ e) (k + 1) := by
  simp [runWithRetry, henv, hctx, execute, effectiveError, hh, hd, hc, hact,
    hng, hbo, retryState, failState]

/-- One unfolding of the retry loop: ordinary failure, Retry decision,
attempt below MaxRetry, backoff configured and the sleep completes —
loop again with the incremented attempt and two checkpoints consumed. -/
theorem runWithRetry_step_retry_b {T : Type} (cfg : Config T) (h : Handler T)
    (env : Nat → Bool) (x : T) (i : Nat) (a : Int) (st : ExecState)
    (k f : Nat) (e : GoError)
    (henv : env k = false) (henv2 : env (k + 1) = false)
    (hctx : st.ctxCancelled = false)
    (hh : h x a = .fail e)
    (hc : e.errorIs .canceled = false)
    (hd : e.errorIs .deadlineExceeded = false)
    (hact : cfg.errorPolicyFn e x a = .ActionRetry)
    (hng : ¬ (a ≥ cfg.maxRetry))
    (hbo : cfg.hasBackoff = true) :
    runWithRetry cfg h env (f + 1) ⟨i, x, a⟩ st k =
      runWithRetry cfg h env f ⟨i, x, a + 1⟩ (retryState cfg st ⟨i, x, a⟩ e) (k + 2) := by
  simp [runWithRetry, henv, henv2, hctx, execute, effectiveError, hh, hd, hc,
    hact, hng, hbo, retryState, failState]

/-- One unfolding of the retry loop: ordinary failure, Retry decision,
attempt already at MaxRetry — the task ends Failed. -/
theorem runWithRetry_step_fail_max {T : Type} (cfg : Config T) (h : Handler T)
    (env : Nat → Bool) (x : T) (i : Nat) (a : Int) (st : ExecState)
    (k f : Nat) (e : GoError)
    (henv : env k = false) (hctx : st.ctxCancelled = false)
    (hh : h x a = .fail e)
    (hc : e.errorIs .canceled = false)
    (hd : e.errorIs .deadlineExceeded = false)
    (hact : cfg.errorPolicyFn e x a = .ActionRetry)
    (hge : a ≥ cfg.maxRetry) :
    runWithRetry cfg h env (f + 1) ⟨i, x, a⟩ st k =
      ({ failState cfg st ⟨i, x, a⟩ e with
          failed := (failState cfg st ⟨i, x, a⟩ e).failed + 1 }, k + 1) := by
  simp [runWithRetry, henv, hctx, execute, effectiveError, hh, hd, hc, hact,
    hge, failState]

/-- Loop analysis for AlwaysRetry over an always-failing handler: from
attempt a ≤ N (with MaxRetry = N and enough fuel), the task performs
N - a + 1 further handler invocations, records N - a further retries,
and ends with exactly one failed increment; success and cancelled are
untouched. -/
theorem alwaysRetry_fail_loop {T : Type} (cfg : Config T) (h : Handler T)
    (x : T) (i : Nat) (N : Nat) (e : Int → GoError)
    (hMR : cfg.maxRetry = (N : Int))
    (hpol : cfg.errorPolicy = some (AlwaysRetry T))
    (hh : ∀ b : Int, h x b = .fail (e b))
    (hc : ∀ b : Int, (e b).errorIs .canceled = false)
    (hd : ∀ b : Int, (e b).errorIs .deadlineExceeded = false) :
    ∀ (fuel a : Nat) (st : ExecState) (k : Nat),
      a ≤ N → N - a < fuel → st.ctxCancelled = false →
      (runWithRetry cfg h (fun _ => false) fuel ⟨i, x, (a : Int)⟩ st k).1.failed
          = st.failed + 1 ∧
      (runWithRetry cfg h (fun _ => false) fuel ⟨i, x, (a : Int)⟩ st k).1.retried
          = st.retried + (N - a) ∧
      (runWithRetry cfg h (fun _ => false) fuel ⟨i, x, (a : Int)⟩ st k).1.handlerCalls
          = st.handlerCalls + (N - a) + 1 ∧
      (runWithRetry cfg h (fun _ => false) fuel ⟨i, x, (a : Int)⟩ st k).1.success
          = st.success ∧
      (runWithRetry cfg h (fun _ => false) fuel ⟨i, x, (a : Int)⟩ st k).1.cancelled
          = st.cancelled := by
  have hact : ∀ (b : Int), cfg.errorPolicyFn (e b) x b = .ActionRetry := by
    intro b
    simp [Config.errorPolicyFn, hpol, AlwaysRetry]
  intro fuel
  induction fuel with
  | zero => intro a st k ha hfuel hctx; omega
  | succ f ih =>
    intro a st k ha hfuel hctx
    rcases eq_or_lt_of_le ha with heq | hlt
    · subst heq
      have hge : ((a : Int) ≥ cfg.maxRetry) := by rw [hMR]
      rw [runWithRetry_step_fail_max cfg h _ x i _ st k f (e a) rfl hctx
        (hh _) (hc _) (hd _) (hact _) hge]
      simp [Nat.sub_self]
    · have hng : ¬ ((a : Int) ≥ cfg.maxRetry) := by
        rw [hMR]
        exact_mod_cast not_le.mpr hlt
      have hcast : (a : Int) + 1 = ((a + 1 : Nat) : Int) := by push_cast; ring
      have hctx2 : (retryState cfg st ⟨i, x, (a : Int)⟩ (e a)).ctxCancelled = false := by
        simp [hctx]
      cases hb : cfg.hasBackoff with
      | true =>
        rw [runWithRetry_step_retry_b cfg h _ x i _ st k f (e a) rfl rfl hctx
          (hh _) (hc _) (hd _) (hact _) hng hb, hcast]
        obtain ⟨h1, h2, h3, h4, h5⟩ :=
          ih (a + 1) (retryState cfg st ⟨i, x, (a : Int)⟩ (e a)) (k + 2)
            (by omega) (by omega) hctx2
        rw [h1, h2, h3, h4, h5]
        simp
        omega
      | false =>
        rw [runWithRetry_step_retry_nb cfg h _ x i _ st k f (e a) rfl hctx
          (hh _) (hc _) (hd _) (hact _) hng hb, hcast]
        obtain ⟨h1, h2, h3, h4, h5⟩ :=
          ih (a + 1) (retryState cfg st ⟨i, x, (a : Int)⟩ (e a)) (k + 1)
            (by omega) (by omega) hctx2
        rw [h1, h2, h3, h4, h5]
        simp
        omega

/-- Claim C2: under AlwaysRetry with MaxRetry = N, a work item whose
handler fails every invocation with an ordinary (non-cancellation) error
is attempted exactly N + 1 times, ends with exactly one failed
increment, and increases the retried counter by exactly N; success and
cancelled are unchanged. -/
theorem always_retry_exhausts_attempts {T : Type} (cfg : Config T)
    (h : Handler T) (x : T) (i : Nat) (N : Nat) (e : Int → GoError)
    (st : ExecState) (k : Nat)
    (hMR : cfg.maxRetry = (N : Int))
    (hpol : cfg.errorPolicy = some (AlwaysRetry T))
    (hh : ∀ b : Int, h x b = .fail (e b))
    (hc : ∀ b : Int, (e b).errorIs .canceled = false)
    (hd : ∀ b : Int, (e b).errorIs .deadlineExceeded = false)
    (hctx : st.ctxCancelled = false) :
    (runWithRetry cfg h (fun _ => false) (N + 1) ⟨i, x, 0⟩ st k).1.failed
        = st.failed + 1 ∧
    (runWithRetry cfg h (fun _ => false) (N + 1) ⟨i, x, 0⟩ st k).1.retried
        = st.retried + N ∧
    (runWithRetry cfg h (fun _ => false) (N + 1) ⟨i, x, 0⟩ st k).1.handlerCalls
        = st.handlerCalls + (N + 1) ∧
    (runWithRetry cfg h (fun _ => false) (N + 1) ⟨i, x, 0⟩ st k).1.success
        = st.success ∧
    (runWithRetry cfg h (fun _ => false) (N + 1) ⟨i, x, 0⟩ st k).1.cancelled
        = st.cancelled := by
  have h0 : ((0 : Nat) : Int) = (0 : Int) := rfl
  obtain ⟨h1, h2, h3, h4, h5⟩ :=
    alwaysRetry_fail_loop cfg h x i N e hMR hpol hh hc hd (N + 1) 0 st k
      (Nat.zero_le N) (by omega) hctx
  rw [h0] at h1 h2 h3 h4 h5
  refine ⟨h1, ?_, ?_, h4, h5⟩
  · rw [h2]; omega
  · rw [h3]; omega

/-- Concrete scenario for the C2 witness: AlwaysRetry, MaxRetry = 2. -/
def retryExhaustConfig : Config Unit :=
  { concurrency := 1, maxRetry := 2, errorPolicy := some (AlwaysRetry Unit) }

/-- Claim C2 witness: with MaxRetry = 2 and an always-failing handler the
item is attempted 3 times, fails once, and retries twice. -/
theorem always_retry_exhausts_attempts_witness :
    (runWithRetry retryExhaustConfig (fun _ _ => .fail (.msg "always"))
      (fun _ => false) 3 ⟨0, (), 0⟩ {} 0).1.failed = 1 ∧
    (runWithRetry retryExhaustConfig (fun _ _ => .fail (.msg "always"))
      (fun _ => false) 3 ⟨0, (), 0⟩ {} 0).1.retried = 2 ∧
    (runWithRetry retryExhaustConfig (fun _ _ => .fail (.msg "always"))
      (fun _ => false) 3 ⟨0, (), 0⟩ {} 0).1.handlerCalls = 3 ∧
    (runWithRetry retryExhaustConfig (fun _ _ => .fail (.msg "always"))
      (fun _ => false) 3 ⟨0, (), 0⟩ {} 0).1.success = 0 ∧
    (runWithRetry retryExhaustConfig (fun _ _ => .fail (.msg "always"))
      (fun _ => false) 3 ⟨0, (), 0⟩ {} 0).1.cancelled = 0 :=
  always_retry_exhausts_attempts retryExhaustConfig
    (fun _ _ => .fail (.msg "always")) () 0 2 (fun _ => .msg "always") {} 0
    rfl rfl (fun _ => rfl) (fun _ => rfl) (fun _ => rfl) rfl

/-! ## Claims about the run-level protocol (C6, C9, C10) -/

/-- Run on a used executor: fail fast with the sentinel, no mutation. -/
theorem Run_of_used {T : Type} (ex : Executor T) (items : List T)
    (h : Handler T) (env : Nat → Bool) (d : Nat) (hu : ex.used = true) :
    ex.Run items h env d = (ex, .error ErrExecutorReused) := by
  simp [Executor.Run, hu]

/-- RunStream on a used executor: fail fast with the sentinel. -/
theorem RunStream_of_used {T : Type} (ex : Executor T) (inItems : List T)
    (h : Handler T) (env : Nat → Bool) (d : Nat) (hu : ex.used = true) :
    ex.RunStream inItems h env d = (ex, .error ErrExecutorReused) := by
  simp [Executor.RunStream, hu]

/-- A first Run call returns the executor with only the used flag set. -/
theorem Run_fst_of_fresh {T : Type} (ex : Executor T) (items : List T)
    (h : Handler T) (env : Nat → Bool) (d : Nat) (hu : ex.used = false) :
    (ex.Run items h env d).1 = ⟨ex.config, true⟩ := by
  simp only [Executor.Run, hu, Bool.false_eq_true, if_false]
  split <;> rfl

/-- Claim C6: a fresh Executor accepts its first Run or RunStream call
(returning a Result, not the sentinel); the call flips the used flag, and
every subsequent Run or RunStream call on the flipped executor returns
the ErrExecutorReused sentinel with no Result and mutates no executor
state (the returned executor is unchanged). -/
theorem executor_single_use {T : Type} (ex : Executor T)
    (items items2 inItems inItems2 : List T) (h h2 : Handler T)
    (env env2 : Nat → Bool) (d d2 : Nat)
    (hused : ex.used = false) :
    (∃ r, (ex.Run items h env d).2 = .ok r) ∧
    (∃ r, (ex.RunStream inItems h env d).2 = .ok r) ∧
    (ex.Run items h env d).1.used = true ∧
    (ex.Run items h env d).1.config = ex.config ∧
    Executor.Run (ex.Run items h env d).1 items2 h2 env2 d2 =
      ((ex.Run items h env d).1, .error ErrExecutorReused) ∧
    Executor.RunStream (ex.Run items h env d).1 inItems2 h2 env2 d2 =
      ((ex.Run items h env d).1, .error ErrExecutorReused) := by
  refine ⟨?_, ?_, ?_, ?_, ?_, ?_⟩
  · simp only [Executor.Run, hused, Bool.false_eq_true, if_false]
    split
    · exact ⟨_, rfl⟩
    · exact ⟨_, rfl⟩
  · simp only [Executor.RunStream, hused, Bool.false_eq_true, if_false]
    exact ⟨_, rfl⟩
  · rw [Run_fst_of_fresh ex items h env d hused]
  · rw [Run_fst_of_fresh ex items h env d hused]
  · exact Run_of_used _ items2 h2 env2 d2
      (by rw [Run_fst_of_fresh ex items h env d hused])
  · exact RunStream_of_used _ inItems2 h2 env2 d2
      (by rw [Run_fst_of_fresh ex items h env d hused])

/-- Concrete scenario for the C6 witness. -/
def reuseConfig : Config Nat := { concurrency := 2 }

/-- Claim C6 witness: single-use behaviour at a concrete executor. -/
theorem executor_single_use_witness :
    (∃ r, ((⟨reuseConfig.SetDefaults, false⟩ : Executor Nat).Run [1, 2]
      (fun _ _ => .ok) (fun _ => false) 0).2 = .ok r) ∧
    (∃ r, ((⟨reuseConfig.SetDefaults, false⟩ : Executor Nat).RunStream [1, 2]
      (fun _ _ => .ok) (fun _ => false) 0).2 = .ok r) ∧
    ((⟨reuseConfig.SetDefaults, false⟩ : Executor Nat).Run [1, 2]
      (fun _ _ => .ok) (fun _ => false) 0).1.used = true ∧
    ((⟨reuseConfig.SetDefaults, false⟩ : Executor Nat).Run [1, 2]
      (fun _ _ => .ok) (fun _ => false) 0).1.config = reuseConfig.SetDefaults ∧
    Executor.Run ((⟨reuseConfig.SetDefaults, false⟩ : Executor Nat).Run [1, 2]
      (fun _ _ => .ok) (fun _ => false) 0).1 [3] (fun _ _ => .ok) (fun _ => false) 0 =
      (((⟨reuseConfig.SetDefaults, false⟩ : Executor Nat).Run [1, 2]
        (fun _ _ => .ok) (fun _ => false) 0).1, .error ErrExecutorReused) ∧
    Executor.RunStream ((⟨reuseConfig.SetDefaults, false⟩ : Executor Nat).Run [1, 2]
      (fun _ _ => .ok) (fun _ => false) 0).1 [3] (fun _ _ => .ok) (fun _ => false) 0 =
      (((⟨reuseConfig.SetDefaults, false⟩ : Executor Nat).Run [1, 2]
        (fun _ _ => .ok) (fun _ => false) 0).1, .error ErrExecutorReused) :=
  executor_single_use ⟨reuseConfig.SetDefaults, false⟩ [1, 2] [3] [1, 2] [3]
    (fun _ _ => .ok) (fun _ _ => .ok) (fun _ => false) (fun _ => false) 0 0 rfl

/-- Claim C9: Run on an empty items slice short-circuits — the Result has
Total = 0 and EndTime set, OnBegin fires with total 0 when configured,
but OnEnd is never invoked and ErrorCount stays nil because
populateResult is skipped. -/
theorem empty_run_short_circuit {T : Type} (cfg : Config T) (ex : Executor T)
    (h : Handler T) (env : Nat → Bool) (d : Nat)
    (hb : cfg.hasOnBegin = true) (_he : cfg.hasOnEnd = true)
    (hnew : New cfg = .ok ex) :
    ex.Run [] h env d =
      ({ ex with used := true },
       .ok { total := 0, onBeginTotal := some 0, endTimeSet := true }) := by
  have hex : ex = ⟨cfg.SetDefaults, false⟩ := by
    unfold New at hnew
    rcases hv : cfg.Validate with _ | s
    · rw [hv] at hnew
      exact (Except.ok.inj hnew).symm
    · rw [hv] at hnew
      cases hnew
  subst hex
  have hb2 : (Config.SetDefaults cfg).hasOnBegin = true := by
    simpa [Config.SetDefaults] using hb
  simp [Executor.Run, hb2]

/-- Concrete scenario for the C9 witness. -/
def emptyRunConfig : Config Nat :=
  { concurrency := 2, hasOnBegin := true, hasOnEnd := true }

/-- Claim C9 witness: the empty-run short-circuit at a concrete config. -/
theorem empty_run_short_circuit_witness :
    (⟨emptyRunConfig.SetDefaults, false⟩ : Executor Nat).Run []
      (fun _ _ => .ok) (fun _ => false) 0 =
      ({ config := emptyRunConfig.SetDefaults, used := true },
       .ok { total := 0, onBeginTotal := some 0, endTimeSet := true }) :=
  empty_run_short_circuit emptyRunConfig ⟨emptyRunConfig.SetDefaults, false⟩
    (fun _ _ => .ok) (fun _ => false) 0 rfl rfl rfl

/-- recordError appends no sample when MaxErrorSamples is not positive. -/
theorem recordError_samples_of_nonpos {T : Type} (cfg : Config T)
    (st : ExecState) (item : WorkItem T) (e : GoError)
    (hm : cfg.maxErrorSamples ≤ 0) :
    (recordError cfg st item e).samples = st.samples := by
  unfold recordError
  split <;> dsimp only <;>
    rw [if_neg (fun hand => absurd hand.1 (not_lt.mpr hm))]

/-- The retry loop never touches the sample buffer when MaxErrorSamples
is not positive. -/
theorem runWithRetry_samples_of_nonpos {T : Type} (cfg : Config T)
    (h : Handler T) (env : Nat → Bool) (hm : cfg.maxErrorSamples ≤ 0) :
    ∀ (fuel : Nat) (item : WorkItem T) (st : ExecState) (k : Nat),
      (runWithRetry cfg h env fuel item st k).1.samples = st.samples := by
  intro fuel
  induction fuel with
  | zero => intro item st k; rfl
  | succ f ih =>
    intro item st k
    have hrec : ∀ (st' : ExecState) (it : WorkItem T) (e : GoError),
        (recordError cfg st' it e).samples = st'.samples :=
      fun st' it e => recordError_samples_of_nonpos cfg st' it e hm
    simp only [runWithRetry]
    rcases ho : h item.data item.attempt with _ | e | v <;>
      simp only [execute, ho] <;>
      repeat' split <;>
      first
        | rfl
        | simp_all [hrec]
        | ((repeat' split) <;> first | rfl | simp_all [hrec])

/-- The sequential pool never touches the sample buffer when
MaxErrorSamples is not positive. -/
theorem runItems_samples_of_nonpos {T : Type} (cfg : Config T)
    (h : Handler T) (env : Nat → Bool) (d : Nat)
    (hm : cfg.maxErrorSamples ≤ 0) :
    ∀ (ws : List (WorkItem T)) (st : ExecState) (k : Nat),
      (runItems cfg h env d ws st k).1.samples = st.samples := by
  intro ws
  induction ws with
  | nil => intro st k; rfl
  | cons w rest ih =>
    intro st k
    simp only [runItems]
    split
    · rfl
    · simp [ih, runWithRetry_samples_of_nonpos cfg h env hm]

/-- Claim C10: a negative MaxErrorSamples passes Validate (New accepts
the config), survives SetDefaults (only a zero value is replaced by
100), and suppresses all error sampling: every run on the resulting
executor ends with an empty ErrorSamples, however many failures occur. -/
theorem negative_max_error_samples {T : Type} (cfg : Config T)
    (hc : 0 < cfg.concurrency) (hr : 0 ≤ cfg.maxRetry) (ht : 0 ≤ cfg.timeout)
    (hm : cfg.maxErrorSamples < 0) :
    cfg.Validate = none ∧
    New cfg = .ok ⟨cfg.SetDefaults, false⟩ ∧
    cfg.SetDefaults.maxErrorSamples = cfg.maxErrorSamples ∧
    ∀ (items : List T) (h : Handler T) (env : Nat → Bool) (d : Nat),
      (runResultOf ((⟨cfg.SetDefaults, false⟩ : Executor T).Run items h env d)).errorSamples
        = [] := by
  have hv : cfg.Validate = none := by
    unfold Config.Validate
    rw [if_neg (not_le.mpr hc), if_neg (not_lt.mpr hr), if_neg (not_lt.mpr ht)]
  have hms : cfg.SetDefaults.maxErrorSamples = cfg.maxErrorSamples := by
    simp only [Config.SetDefaults]
    rw [if_neg (by omega : ¬ cfg.maxErrorSamples = 0)]
  refine ⟨hv, ?_, hms, ?_⟩
  · unfold New
    rw [hv]
  · intro items h env d
    have hm2 : cfg.SetDefaults.maxErrorSamples ≤ 0 := by rw [hms]; omega
    simp only [Executor.Run, Bool.false_eq_true, if_false]
    split
    · simp [runResultOf]
    · simp [runResultOf, populateResult,
        runItems_samples_of_nonpos cfg.SetDefaults h env d hm2]

/-- Concrete scenario for the C10 witness. -/
def negSamplesConfig : Config Nat := { concurrency := 1, maxErrorSamples := -1 }

/-- Claim C10 witness: the theorem at a concrete negative-samples config
with an always-failing handler over three items. -/
theorem negative_max_error_samples_witness :
    negSamplesConfig.Validate = none ∧
    New negSamplesConfig = .ok ⟨negSamplesConfig.SetDefaults, false⟩ ∧
    negSamplesConfig.SetDefaults.maxErrorSamples = -1 ∧
    (runResultOf ((⟨negSamplesConfig.SetDefaults, false⟩ : Executor Nat).Run
      [0, 1, 2] (fun _ _ => .fail (.msg "always")) (fun _ => false) 0)).errorSamples
      = [] := by
  obtain ⟨h1, h2, h3, h4⟩ :=
    negative_max_error_samples negSamplesConfig (by decide) (by decide)
      (by decide) (by decide)
  exact ⟨h1, h2, h3, h4 [0, 1, 2] (fun _ _ => .fail (.msg "always")) (fun _ => false) 0⟩

/-! ## Claims about abort and error aggregation (C4, C7) -/

/-- Concrete scenario: PanicAsAbort with a handler that panics on item 2
of ten items (defaults fill ErrorPolicy = AlwaysContinue,
MaxErrorSamples = 100). -/
def panicAbortConfig : Config Nat :=
  { concurrency := 3, panicPolicy := some (PanicAsAbort Nat) }

/-- Handler that panics on the item with value 2 and succeeds elsewhere. -/
def panicOnTwoHandler : Handler Nat :=
  fun d _ => if d = 2 then .panicked "test panic" else .ok

/-- Claim C4 counterexample: with no remaining item buffered in the work
channel at abort time (drained = 0), the seven never-dispatched items get
no status at all — cancelled stays 0 — contradicting the claim that
every remaining not-yet-started item ends as Cancelled. -/
theorem panic_abort_undispatched_cex :
    (runResultOf ((⟨panicAbortConfig.SetDefaults, false⟩ : Executor Nat).Run
      (List.range 10) panicOnTwoHandler (fun _ => false) 0)).total = 10 ∧
    (runResultOf ((⟨panicAbortConfig.SetDefaults, false⟩ : Executor Nat).Run
      (List.range 10) panicOnTwoHandler (fun _ => false) 0)).success = 2 ∧
    (runResultOf ((⟨panicAbortConfig.SetDefaults, false⟩ : Executor Nat).Run
      (List.range 10) panicOnTwoHandler (fun _ => false) 0)).failed = 1 ∧
    (runResultOf ((⟨panicAbortConfig.SetDefaults, false⟩ : Executor Nat).Run
      (List.range 10) panicOnTwoHandler (fun _ => false) 0)).aborted = true ∧
    (runResultOf ((⟨panicAbortConfig.SetDefaults, false⟩ : Executor Nat).Run
      (List.range 10) panicOnTwoHandler (fun _ => false) 0)).cancelled = 0 := by
  decide

/-- Claim C4 (amended): under PanicAsAbort with a handler that panics on
exactly one item, that item ends counted Failed, AbortReason records its
task id, attempt and converted panic error, the run is aborted (its
context cancelled), no remaining item ends as Success, and of the
remaining not-yet-started items exactly those already dispatched to the
work channel (drained ≤ 7 here) end as Cancelled — the rest are never
dispatched and get no status. -/
theorem panic_abort_outcome (d : Nat) (hd : d ≤ 7) :
    (runResultOf ((⟨panicAbortConfig.SetDefaults, false⟩ : Executor Nat).Run
      (List.range 10) panicOnTwoHandler (fun _ => false) d)).failed = 1 ∧
    (runResultOf ((⟨panicAbortConfig.SetDefaults, false⟩ : Executor Nat).Run
      (List.range 10) panicOnTwoHandler (fun _ => false) d)).aborted = true ∧
    (runResultOf ((⟨panicAbortConfig.SetDefaults, false⟩ : Executor Nat).Run
      (List.range 10) panicOnTwoHandler (fun _ => false) d)).abortReason =
        some ⟨2, 0, .msg "panic: test panic"⟩ ∧
    (runResultOf ((⟨panicAbortConfig.SetDefaults, false⟩ : Executor Nat).Run
      (List.range 10) panicOnTwoHandler (fun _ => false) d)).success = 2 ∧
    (runResultOf ((⟨panicAbortConfig.SetDefaults, false⟩ : Executor Nat).Run
      (List.range 10) panicOnTwoHandler (fun _ => false) d)).cancelled = d ∧
    (runResultOf ((⟨panicAbortConfig.SetDefaults, false⟩ : Executor Nat).Run
      (List.range 10) panicOnTwoHandler (fun _ => false) d)).total = 10 := by
  have e1 : ((⟨panicAbortConfig.SetDefaults, false⟩ : Executor Nat).Run
      (List.range 10) panicOnTwoHandler (fun _ => false) d) =
      (⟨panicAbortConfig.SetDefaults, true⟩,
       .ok { total := 10, success := 2, failed := 1, retried := 0,
             cancelled := 0 + min d 7, aborted := true,
             abortReason := some ⟨2, 0, .msg "panic: test panic"⟩,
             errorSamples := [⟨.msg "panic: test panic", 2, 0⟩],
             errorCount := some [], endTimeSet := true,
             onBeginTotal := none, onEndCalled := false }) := rfl
  rw [e1]
  simp only [runResultOf]
  refine ⟨trivial, trivial, trivial, trivial, ?_, trivial⟩
  omega

/-- Claim C4 witness: the amended theorem with three buffered items. -/
theorem panic_abort_outcome_witness :
    (runResultOf ((⟨panicAbortConfig.SetDefaults, false⟩ : Executor Nat).Run
      (List.range 10) panicOnTwoHandler (fun _ => false) 3)).failed = 1 ∧
    (runResultOf ((⟨panicAbortConfig.SetDefaults, false⟩ : Executor Nat).Run
      (List.range 10) panicOnTwoHandler (fun _ => false) 3)).aborted = true ∧
    (runResultOf ((⟨panicAbortConfig.SetDefaults, false⟩ : Executor Nat).Run
      (List.range 10) panicOnTwoHandler (fun _ => false) 3)).abortReason =
        some ⟨2, 0, .msg "panic: test panic"⟩ ∧
    (runResultOf ((⟨panicAbortConfig.SetDefaults, false⟩ : Executor Nat).Run
      (List.range 10) panicOnTwoHandler (fun _ => false) 3)).success = 2 ∧
    (runResultOf ((⟨panicAbortConfig.SetDefaults, false⟩ : Executor Nat).Run
      (List.range 10) panicOnTwoHandler (fun _ => false) 3)).cancelled = 3 ∧
    (runResultOf ((⟨panicAbortConfig.SetDefaults, false⟩ : Executor Nat).Run
      (List.range 10) panicOnTwoHandler (fun _ => false) 3)).total = 10 :=
  panic_abort_outcome 3 (by decide)

/-- Concrete scenario: aggregation on, five-sample cap, ten items always
failing with two distinct messages. -/
def aggregationConfig : Config Nat :=
  { concurrency := 3, errorAggregation := true, maxErrorSamples := 5 }

/-- Handler failing every item, even items with one message and odd items
with another. -/
def parityHandler : Handler Nat :=
  fun d _ => .fail (.msg (if d % 2 == 0 then "even number" else "odd number"))

/-- The result of the C7 scenario run. -/
def aggregationRun : RunResult :=
  runResultOf ((⟨aggregationConfig.SetDefaults, false⟩ : Executor Nat).Run
    (List.range 10) parityHandler (fun _ => false) 0)

/-- Claim C7: with ErrorAggregation = true and MaxErrorSamples = 5, ten
always-failing items carrying exactly two distinct messages produce an
ErrorCount with exactly two keys whose counts sum to 10 and at most five
error samples — concretely the first five recorded failures, in order;
and in general recordError keeps the existing sample buffer as an
untouched front segment (never evicting or reordering) and never grows it
beyond MaxErrorSamples. -/
theorem error_aggregation_and_samples :
    (aggregationRun.errorCount = some [("even number", 5), ("odd number", 5)] ∧
     (aggregationRun.errorCount.getD []).length = 2 ∧
     ((aggregationRun.errorCount.getD []).map Prod.snd).sum = 10 ∧
     aggregationRun.errorSamples.length ≤ 5 ∧
     aggregationRun.errorSamples =
       [⟨.msg "even number", 0, 0⟩, ⟨.msg "odd number", 1, 0⟩,
        ⟨.msg "even number", 2, 0⟩, ⟨.msg "odd number", 3, 0⟩,
        ⟨.msg "even number", 4, 0⟩]) ∧
    (∀ (T : Type) (cfg : Config T) (st : ExecState) (item : WorkItem T)
        (e : GoError),
      (recordError cfg st item e).samples.take st.samples.length = st.samples ∧
      (recordError cfg st item e).samples.length ≤
        max st.samples.length cfg.maxErrorSamples.toNat) := by
  constructor
  · exact ⟨by decide, by decide, by decide, by decide, by decide⟩
  · intro T cfg st item e
    unfold recordError
    split <;> dsimp only <;> split
    · next hap =>
      constructor
      · rw [List.take_left]
      · rw [List.length_append]
        have := hap.2
        simp only [List.length_singleton]
        omega
    · exact ⟨List.take_length _, le_max_left _ _⟩
    · next hap =>
      constructor
      · rw [List.take_left]
      · rw [List.length_append]
        have := hap.2
        simp only [List.length_singleton]
        omega
    · exact ⟨List.take_length _, le_max_left _ _⟩

/-! ## Claim C5: counter partition of the total -/

/-- The number of items with a terminal status. -/
def ExecState.tally (st : ExecState) : Nat :=
  st.success + st.failed + st.cancelled

@[simp] theorem abortUpd_isSome {T : Type} (st : ExecState) (item : WorkItem T)
    (e : GoError) : (abortUpd st item e).abortInfo.isSome = true := by
  unfold abortUpd
  split
  · rfl
  · next hn =>
    cases ha : st.abortInfo with
    | none => exact absurd (by simp [ha]) hn
    | some r => simp [ha]

/-- The run-context flag is monotone through the retry loop. -/
theorem runWithRetry_ctx_mono {T : Type} (cfg : Config T) (h : Handler T)
    (env : Nat → Bool) (fuel : Nat) (item : WorkItem T) (st : ExecState)
    (k : Nat) (hctx : st.ctxCancelled = true) :
    (runWithRetry cfg h env fuel item st k).1.ctxCancelled = true := by
  cases fuel with
  | zero => exact hctx
  | succ f => simp [runWithRetry, hctx]

/-- A recorded AbortReason is never cleared by the retry loop. -/
theorem runWithRetry_abort_mono {T : Type} (cfg : Config T) (h : Handler T)
    (env : Nat → Bool) :
    ∀ (fuel : Nat) (item : WorkItem T) (st : ExecState) (k : Nat),
      st.abortInfo.isSome = true →
      (runWithRetry cfg h env fuel item st k).1.abortInfo.isSome = true := by
  intro fuel
  induction fuel with
  | zero => intro item st k hs; exact hs
  | succ f ih =>
    intro item st k hs
    simp only [runWithRetry]
    rcases ho : h item.data item.attempt with _ | e | v <;>
      simp only [execute, ho] <;>
      repeat' split <;>
      first
        | (simp [hs]; done)
        | (exact ih _ _ _ (by simp [hs]))
        | ((repeat' split) <;>
            first
              | (simp [hs]; done)
              | (exact ih _ _ _ (by simp [hs])))

set_option maxHeartbeats 1000000 in
/-- Each pass through the retry loop adds at most one terminal status. -/
theorem runWithRetry_tally_le {T : Type} (cfg : Config T) (h : Handler T)
    (env : Nat → Bool) :
    ∀ (fuel : Nat) (item : WorkItem T) (st : ExecState) (k : Nat),
      (runWithRetry cfg h env fuel item st k).1.tally ≤ st.tally + 1 := by
  intro fuel
  induction fuel with
  | zero => intro item st k; exact Nat.le_succ _
  | succ f ih =>
    intro item st k
    simp only [runWithRetry]
    rcases ho : h item.data item.attempt with _ | e | v <;>
      simp only [execute, ho] <;>
      repeat' split <;>
      first
        | (simp only [ExecState.tally]; omega)
        | (exact ih _ _ _)
        | (simp_all [ExecState.tally]; try omega
           done)
        | ((repeat' split) <;>
            first
              | (simp only [ExecState.tally]; omega)
              | (exact ih _ _ _)
              | (simp_all [ExecState.tally]; try omega
                 done))

set_option maxHeartbeats 1600000 in
/-- With no caller-side cancellation and a live run context, one task
either triggers an abort (context cancelled, AbortReason recorded) or
contributes exactly one terminal status. -/
theorem runWithRetry_tally_exact {T : Type} (cfg : Config T) (h : Handler T) :
    ∀ (fuel : Nat) (item : WorkItem T) (st : ExecState) (k : Nat),
      (cfg.maxRetry - item.attempt).toNat < fuel →
      st.ctxCancelled = false →
      ((runWithRetry cfg h (fun _ => false) fuel item st k).1.ctxCancelled = true ∧
        (runWithRetry cfg h (fun _ => false) fuel item st k).1.abortInfo.isSome = true) ∨
      ((runWithRetry cfg h (fun _ => false) fuel item st k).1.ctxCancelled = false ∧
        (runWithRetry cfg h (fun _ => false) fuel item st k).1.tally = st.tally + 1) := by
  intro fuel
  induction fuel with
  | zero => intro item st k hb hctx; omega
  | succ f ih =>
    intro item st k hb hctx
    simp only [runWithRetry, hctx, Bool.or_false]
    rcases ho : h item.data item.attempt with _ | e | v
    · simp only [execute, ho]
      exact Or.inr ⟨by simp [hctx], by simp [ExecState.tally, hctx] <;> omega⟩
    · simp only [execute, ho]
      (repeat' split) <;>
      ((try simp only [recordError_success, recordError_failed, recordError_retried,
          recordError_cancelled, recordError_ctxCancelled, recordError_abortInfo,
          recordError_handlerCalls, recordError_errorPolicyCalls, hctx])
       first
        | (refine Or.inr ⟨?_, ?_⟩
           · simp [hctx]
           · simp [ExecState.tally, hctx] <;> omega)
        | (refine Or.inl ⟨?_, ?_⟩ <;> (simp; done))
        | (apply ih
           · dsimp only
             omega
           · simp [hctx])
        | (refine Or.inl ⟨?_, ?_⟩
           · apply runWithRetry_ctx_mono
             simp
           · apply runWithRetry_abort_mono
             simp)
        | (simp_all
           done))
    · simp only [execute, ho]
      (repeat' split) <;>
      ((try simp only [recordError_success, recordError_failed, recordError_retried,
          recordError_cancelled, recordError_ctxCancelled, recordError_abortInfo,
          recordError_handlerCalls, recordError_errorPolicyCalls, hctx])
       first
        | (refine Or.inr ⟨?_, ?_⟩
           · simp [hctx]
           · simp [ExecState.tally, hctx] <;> omega)
        | (refine Or.inl ⟨?_, ?_⟩ <;> (simp; done))
        | (apply ih
           · dsimp only
             omega
           · simp [hctx])
        | (refine Or.inl ⟨?_, ?_⟩
           · apply runWithRetry_ctx_mono
             simp
           · apply runWithRetry_abort_mono
             simp)
        | (simp_all
           done))

/-- A recorded AbortReason survives the rest of the run. -/
theorem runItems_abort_mono {T : Type} (cfg : Config T) (h : Handler T)
    (env : Nat → Bool) (d : Nat) :
    ∀ (ws : List (WorkItem T)) (st : ExecState) (k : Nat),
      st.abortInfo.isSome = true →
      (runItems cfg h env d ws st k).1.abortInfo.isSome = true := by
  intro ws
  induction ws with
  | nil => intro st k hs; exact hs
  | cons w rest ih =>
    intro st k hs
    simp only [runItems]
    split
    · simpa using hs
    · rcases hp : runWithRetry cfg h env (cfg.maxRetry.toNat + 1) w st k with ⟨st2, k2⟩
      have h1 := runWithRetry_abort_mono cfg h env (cfg.maxRetry.toNat + 1) w st k hs
      rw [hp] at h1
      exact ih st2 k2 h1

/-- Each dispatched or drained item adds at most one terminal status. -/
theorem runItems_tally_le {T : Type} (cfg : Config T) (h : Handler T)
    (env : Nat → Bool) (d : Nat) :
    ∀ (ws : List (WorkItem T)) (st : ExecState) (k : Nat),
      (runItems cfg h env d ws st k).1.tally ≤ st.tally + ws.length := by
  intro ws
  induction ws with
  | nil => intro st k; simp [runItems]
  | cons w rest ih =>
    intro st k
    simp only [runItems, List.length_cons]
    split
    · simp only [ExecState.tally]
      omega
    · rcases hp : runWithRetry cfg h env (cfg.maxRetry.toNat + 1) w st k with ⟨st2, k2⟩
      rcases hq : runItems cfg h env d rest st2 k2 with ⟨st3, n3⟩
      simp only [hp, hq]
      have h1 : st2.tally ≤ st.tally + 1 := by
        have := runWithRetry_tally_le cfg h env (cfg.maxRetry.toNat + 1) w st k
        rw [hp] at this
        exact this
      have h2 : st3.tally ≤ st2.tally + rest.length := by
        have := ih st2 k2
        rw [hq] at this
        exact this
      show st3.tally ≤ st.tally + (rest.length + 1)
      omega

/-- With no caller-side cancellation, a run over work items at attempt 0
either records an abort or gives every item exactly one terminal
status. -/
theorem runItems_tally_exact {T : Type} (cfg : Config T) (h : Handler T)
    (d : Nat) :
    ∀ (ws : List (WorkItem T)) (st : ExecState) (k : Nat),
      (∀ w ∈ ws, (0 : Int) ≤ w.attempt) →
      st.ctxCancelled = false →
      (runItems cfg h (fun _ => false) d ws st k).1.abortInfo.isSome = true ∨
      ((runItems cfg h (fun _ => false) d ws st k).1.ctxCancelled = false ∧
        (runItems cfg h (fun _ => false) d ws st k).1.tally = st.tally + ws.length) := by
  intro ws
  induction ws with
  | nil =>
    intro st k _ hctx
    exact Or.inr ⟨hctx, by simp [runItems]⟩
  | cons w rest ih =>
    intro st k hat hctx
    simp only [runItems, hctx, Bool.or_false]
    rcases hp : runWithRetry cfg h (fun _ => false) (cfg.maxRetry.toNat + 1) w st k
      with ⟨st2, k2⟩
    rcases hq : runItems cfg h (fun _ => false) d rest st2 k2 with ⟨st3, n3⟩
    simp only [hp, hq]
    have hstep : (st2.ctxCancelled = true ∧ st2.abortInfo.isSome = true) ∨
        (st2.ctxCancelled = false ∧ st2.tally = st.tally + 1) := by
      have := runWithRetry_tally_exact cfg h (cfg.maxRetry.toNat + 1) w st k
        (by have := hat w (List.mem_cons_self w rest); omega) hctx
      rw [hp] at this
      exact this
    have hmono : st2.abortInfo.isSome = true → st3.abortInfo.isSome = true := by
      intro hs
      have := runItems_abort_mono cfg h (fun _ => false) d rest st2 k2 hs
      rw [hq] at this
      exact this
    rcases hstep with ⟨hc1, ha1⟩ | ⟨hc2, ht2⟩
    · exact Or.inl (hmono ha1)
    · have hrest := ih st2 k2 (fun w2 hw => hat w2 (List.mem_cons_of_mem _ hw)) hc2
      have hrest2 : st3.abortInfo.isSome = true ∨
          (st3.ctxCancelled = false ∧ st3.tally = st2.tally + rest.length) := by
        rw [hq] at hrest
        exact hrest
      rcases hrest2 with hl | ⟨hf1, hf2⟩
      · exact Or.inl hl
      · refine Or.inr ⟨hf1, ?_⟩
        show st3.tally = st.tally + (w :: rest).length
        rw [hf2, ht2]
        simp only [List.length_cons]
        omega

@[simp] theorem toWorkItems_length {T : Type} (items : List T) :
    (toWorkItems items).length = items.length := by
  simp [toWorkItems]

theorem toWorkItems_attempt {T : Type} (items : List T) :
    ∀ w ∈ toWorkItems items, (0 : Int) ≤ w.attempt := by
  intro w hw
  simp only [toWorkItems, List.mem_map] at hw
  obtain ⟨p, _, rfl⟩ := hw
  exact le_refl 0

/-- Concrete scenario for the C5 witness. -/
def partitionConfig : Config Nat := { concurrency := 2 }

/-- Handler failing even items and succeeding on odd ones. -/
def mixedHandler : Handler Nat :=
  fun dd _ => if dd % 2 == 0 then .fail (.msg "even failure") else .ok

/-- Claim C5 counterexample: a run whose context the caller cancels
before any item is dispatched ends with success + failed + cancelled =
0 < 3 = total while Aborted is false — refuting the claim that the sum
equals total unless the run was aborted. -/
theorem caller_cancel_incomplete_cex :
    (runResultOf ((⟨partitionConfig.SetDefaults, false⟩ : Executor Nat).Run
      [0, 1, 2] (fun _ _ => .ok) (fun _ => true) 0)).aborted = false ∧
    (runResultOf ((⟨partitionConfig.SetDefaults, false⟩ : Executor Nat).Run
      [0, 1, 2] (fun _ _ => .ok) (fun _ => true) 0)).total = 3 ∧
    (runResultOf ((⟨partitionConfig.SetDefaults, false⟩ : Executor Nat).Run
      [0, 1, 2] (fun _ _ => .ok) (fun _ => true) 0)).success +
      (runResultOf ((⟨partitionConfig.SetDefaults, false⟩ : Executor Nat).Run
        [0, 1, 2] (fun _ _ => .ok) (fun _ => true) 0)).failed +
      (runResultOf ((⟨partitionConfig.SetDefaults, false⟩ : Executor Nat).Run
        [0, 1, 2] (fun _ _ => .ok) (fun _ => true) 0)).cancelled = 0 := by
  decide

/-- Claim C5 (amended): for every batch run under a valid Config, the
final Result satisfies success + failed + cancelled ≤ total, with
equality unless the run's context was cancelled before all items were
dispatched — whether by an abort or by caller-side cancellation (the
latter can leave the sum below total with Aborted still false); and
IsComplete returns true exactly when the sum equals total. -/
theorem counters_partition_total {T : Type} (cfg : Config T) (ex : Executor T)
    (items : List T) (h : Handler T) (env : Nat → Bool) (d : Nat)
    (hnew : New cfg = .ok ex) :
    (runResultOf (ex.Run items h env d)).total = items.length ∧
    (runResultOf (ex.Run items h env d)).success +
        (runResultOf (ex.Run items h env d)).failed +
        (runResultOf (ex.Run items h env d)).cancelled ≤
      (runResultOf (ex.Run items h env d)).total ∧
    (env = (fun _ => false) →
      (runResultOf (ex.Run items h env d)).aborted = false →
      (runResultOf (ex.Run items h env d)).success +
          (runResultOf (ex.Run items h env d)).failed +
          (runResultOf (ex.Run items h env d)).cancelled =
        (runResultOf (ex.Run items h env d)).total) ∧
    ((runResultOf (ex.Run items h env d)).IsComplete = true ↔
      (runResultOf (ex.Run items h env d)).success +
          (runResultOf (ex.Run items h env d)).failed +
          (runResultOf (ex.Run items h env d)).cancelled =
        (runResultOf (ex.Run items h env d)).total) := by
  have hex : ex = ⟨cfg.SetDefaults, false⟩ := by
    unfold New at hnew
    rcases hv : cfg.Validate with _ | s
    · rw [hv] at hnew
      exact (Except.ok.inj hnew).symm
    · rw [hv] at hnew
      cases hnew
  subst hex
  simp only [Executor.Run, Bool.false_eq_true, if_false]
  split
  · next hemp =>
    have hnil : items = [] := List.isEmpty_iff.mp hemp
    subst hnil
    refine ⟨by simp [runResultOf], by simp [runResultOf],
      fun _ _ => by simp [runResultOf], ?_⟩
    simp [runResultOf, RunResult.IsComplete]
  · rcases hp : runItems cfg.SetDefaults h env d (toWorkItems items) {} 0
      with ⟨st, n⟩
    have hle := runItems_tally_le cfg.SetDefaults h env d (toWorkItems items) {} 0
    rw [hp] at hle
    simp only [ExecState.tally, toWorkItems_length] at hle
    refine ⟨by simp [runResultOf, populateResult, hp], ?_, ?_, ?_⟩
    · simp only [runResultOf, populateResult, hp]
      simpa using hle
    · intro henv hab
      subst henv
      have hex := runItems_tally_exact cfg.SetDefaults h d (toWorkItems items) {} 0
        (toWorkItems_attempt items) rfl
      rw [hp] at hex
      rcases hex with hl | ⟨_, ht⟩
      · simp only [runResultOf, populateResult, hp] at hab ⊢
        rw [hl] at hab
        cases hab
      · simp only [runResultOf, populateResult, hp]
        simp only [ExecState.tally, toWorkItems_length] at ht
        simpa using ht
    · simp [runResultOf, populateResult, hp, RunResult.IsComplete]

/-- Claim C5 witness: the theorem at a concrete three-item run with no
cancellation — the counters sum to the total and IsComplete holds. -/
theorem counters_partition_total_witness :
    (runResultOf ((⟨partitionConfig.SetDefaults, false⟩ : Executor Nat).Run
      [0, 1, 2] mixedHandler (fun _ => false) 0)).total = 3 ∧
    (runResultOf ((⟨partitionConfig.SetDefaults, false⟩ : Executor Nat).Run
      [0, 1, 2] mixedHandler (fun _ => false) 0)).success +
      (runResultOf ((⟨partitionConfig.SetDefaults, false⟩ : Executor Nat).Run
        [0, 1, 2] mixedHandler (fun _ => false) 0)).failed +
      (runResultOf ((⟨partitionConfig.SetDefaults, false⟩ : Executor Nat).Run
        [0, 1, 2] mixedHandler (fun _ => false) 0)).cancelled = 3 ∧
    ((runResultOf ((⟨partitionConfig.SetDefaults, false⟩ : Executor Nat).Run
      [0, 1, 2] mixedHandler (fun _ => false) 0)).IsComplete = true) := by
  obtain ⟨h1, _, h3, h4⟩ :=
    counters_partition_total partitionConfig ⟨partitionConfig.SetDefaults, false⟩
      [0, 1, 2] mixedHandler (fun _ => false) 0 rfl
  have hsum := h3 rfl (by decide)
  refine ⟨?_, ?_, h4.mpr hsum⟩
  · rw [h1]
    rfl
  · rw [hsum, h1]
    rfl

end Kit.Concurrent
